import Mathlib

/-!
Shallow embedding of the new-solver fulfillment engine
(compiler/rustc_trait_selection/src/solve/fulfill.rs).

The solver oracle, the inference context and the proof-tree inspector are
external collaborators of this file's code; they are modelled as opaque
capabilities bundled in an `InferCtxt` record (an abstract state type `S`,
a state-passing evaluation function, a proof-tree query, variable
resolution, the type context's impl predicates and the recursion limit).
Machinery that the engine relies on:
  - `infcx.probe` guarantees rollback of all inference-state mutations on
    every exit path; it is embedded by discarding the state component of
    the speculative evaluations and keeping only their results.
  - `bug!` aborts the process; it is embedded as `Except.error` so that
    fatal paths are distinguishable from returned `FulfillmentError`s.
-/

set_option linter.unusedVariables false

namespace Fulfill

/-- The solver's terminal failure verdict: no rule proves the goal. -/
structure NoSolution where
deriving DecidableEq, Repr

/-- Reason attached to a `Certainty::Maybe` verdict. -/
inductive MaybeCause where
  | ambiguity
  | overflow (suggest_increasing_limit : Bool)
deriving DecidableEq, Repr

/-- Verdict of one oracle evaluation. -/
inductive Certainty where
  | yes
  | maybe (cause : MaybeCause)
deriving DecidableEq, Repr

/-- The first component of `InferCtxt::evaluate_root_goal`:
`Result<(has_changed, Certainty), NoSolution>`. -/
abbrev EvalResult := Except NoSolution (Bool × Certainty)

/-- The shapes of `ty::PredicateKind` distinguished by
`fulfillment_error_for_no_solution` and by the proof-tree walk. Types in
subtype and coercion predicates are abstracted as naturals, as is the
payload of a trait clause. -/
inductive PredicateKind where
  | clauseTrait (pred : Nat)
  | clauseProjection
  | clauseOther
  | normalizesTo
  | aliasRelate
  | subtype (a b : Nat)
  | coerce (a b : Nat)
  | objectSafe
  | ambiguous
  | constEquate
deriving DecidableEq, Repr

/-- The attribution chain stored in an `ObligationCause`. Only the variants
this file constructs are modelled: `ImplDerivedObligation` (with the matched
impl, the where-clause index, the clause's span and the parent trait
predicate) and `BuiltinDerivedObligation`. -/
inductive CauseCode where
  | misc
  | implDerived (impl_or_alias_def_id : Nat) (impl_def_predicate_index : Option Nat)
      (span : Nat) (parent_trait_pred : Nat) (parent_code : CauseCode)
  | builtinDerived (parent_trait_pred : Nat) (parent_code : CauseCode)
deriving DecidableEq, Repr

/-- An obligation's cause: a span plus an attribution chain. -/
structure ObligationCause where
  span : Nat
  code : CauseCode
deriving DecidableEq, Repr

/-- `PredicateObligation`: cause, environment, predicate and recursion depth. -/
structure Obligation where
  cause : ObligationCause
  param_env : Nat
  predicate : PredicateKind
  recursion_depth : Nat
deriving DecidableEq, Repr

/-- A solver goal, `obligation.clone().into()`: environment and predicate. -/
structure Goal where
  param_env : Nat
  predicate : PredicateKind
deriving DecidableEq, Repr

/-- The goal of an obligation (the `Into` conversion used at every
`evaluate_root_goal` call site). -/
def Obligation.goal (o : Obligation) : Goal :=
  { param_env := o.param_env, predicate := o.predicate }

/-- An expected/found pair for type errors. -/
structure ExpectedFound where
  expected : Nat
  found : Nat
deriving DecidableEq, Repr

/-- Modelled from the spec: the constructor of `ExpectedFound`
(rustc_middle::ty::error, not under src/). Section 4.4 of the spec fixes
the classifier's observable output: a failed subtype requirement (for which
src passes the flag `true` together with `(a, b)`) is reported with
expected = b and found = a, and a failed coercion (flag `false`) with the
reversed orientation. -/
def ExpectedFound.new (a_is_expected : Bool) (a b : Nat) : ExpectedFound :=
  if a_is_expected then { expected := b, found := a } else { expected := a, found := b }

/-- The classified error codes constructed by this file.
`ProjectionError` always carries `TypeError::Mismatch` here, so its payload
is not modelled; `SubtypeError` carries the same `ExpectedFound` twice (once
bare, once inside `TypeError::Sorts`), so it is modelled once. -/
inductive FulfillmentErrorCode where
  | ambiguity (overflow : Option Bool)
  | projectionError
  | subtypeError (expected_found : ExpectedFound)
  | selectionError
deriving DecidableEq, Repr

/-- The reportable failure unit: failing leaf, error code, registered root. -/
structure FulfillmentError where
  obligation : Obligation
  code : FulfillmentErrorCode
  root_obligation : Obligation
deriving DecidableEq, Repr

/-- Provenance tag of a nested goal in the proof tree. -/
inductive GoalSource where
  | misc
  | implWhereBound
  | instantiateHigherRanked
deriving DecidableEq, Repr

/-- Where a candidate in the proof tree came from. -/
inductive CandidateSource where
  | impl (def_id : Nat)
  | builtinImpl
  | paramEnv (idx : Nat)
  | aliasBound
deriving DecidableEq, Repr

/-- The probe kind of a candidate (`candidate.kind()`); only trait
candidates matter to `derive_cause`, everything else is grouped. -/
inductive ProbeKind where
  | traitCandidate (source : CandidateSource)
  | other
deriving DecidableEq, Repr

/-- The proof tree exposed by the inspect machinery for one goal:
the goal's environment and predicate, its final verdict, and the
candidates, each a probe kind together with its instantiated nested goals
tagged with their source. -/
inductive PTree where
  | node (param_env : Nat) (predicate : PredicateKind)
      (result : Except NoSolution Certainty)
      (candidates : List (ProbeKind × List (GoalSource × PTree)))

/-- The environment of a proof-tree goal (`nested_goal.goal().param_env`). -/
def PTree.param_env : PTree → Nat
  | .node pe _ _ _ => pe

/-- The predicate of a proof-tree goal (`nested_goal.goal().predicate`). -/
def PTree.predicate : PTree → PredicateKind
  | .node _ p _ _ => p

/-- The verdict of a proof-tree goal (`nested_goal.result()`). -/
def PTree.result : PTree → Except NoSolution Certainty
  | .node _ _ r _ => r

/-- The candidates of a proof-tree goal (`goal.candidates()`). -/
def PTree.candidates : PTree → List (ProbeKind × List (GoalSource × PTree))
  | .node _ _ _ c => c

/-- The type context capabilities used by this file:
`tcx.predicates_of(def_id).instantiate_identity(tcx)` is modelled as the
list of the spans of the impl's declared where-clauses (only the span
component of each clause is read, at `derive_cause`), and
`tcx.recursion_limit()` as a bound. -/
structure Tcx where
  predicates_of : Nat → List Nat
  recursion_limit : Nat

/-- The inference context capabilities used by this file, over an abstract
inference state `S`: the configured solver flag, the open-snapshot count of
a state, the oracle (`evaluate_root_goal(goal, _).0`, threading the mutable
inference state), the proof tree the inspect machinery builds for a goal
(`visit_proof_tree`), and `resolve_vars_if_possible`. The obligation
inspector hook is modelled by the evaluation trace that `process_round`
returns. -/
structure InferCtxt (S : Type) where
  tcx : Tcx
  next_trait_solver : Bool
  num_open_snapshots : S → Nat
  evaluate_root_goal : S → Goal → S × EvalResult
  proof_tree : S → Goal → PTree
  resolve_vars_if_possible : S → Obligation → Obligation

variable {S : Type}

/-- Modelled from the spec: `Predicate::to_opt_poly_trait_pred`
(rustc_middle, not under src/) -- only a trait clause has a trait-predicate
shape to recurse on. -/
def to_opt_poly_trait_pred : PredicateKind → Option Nat
  | .clauseTrait p => some p
  | _ => none

/-- `derive_cause`: for a candidate that matched a concrete impl, cite the
impl's where-clause at `idx` (when it exists) by wrapping the cause in an
`ImplDerivedObligation`; for a built-in candidate wrap it in a
`BuiltinDerivedObligation`; otherwise leave the cause unchanged. -/
def derive_cause (cx : InferCtxt S) (candidate_kind : ProbeKind)
    (cause : ObligationCause) (idx : Nat) (parent_trait_pred : Nat) : ObligationCause :=
  match candidate_kind with
  | .traitCandidate (.impl impl_def_id) =>
    match (cx.tcx.predicates_of impl_def_id).get? idx with
    | some span =>
      { cause with
        code := CauseCode.implDerived impl_def_id (some idx) span parent_trait_pred cause.code }
    | none => cause
  | .traitCandidate .builtinImpl =>
    { cause with code := CauseCode.builtinDerived parent_trait_pred cause.code }
  | _ => cause

/-- The derived obligation built for an `ImplWhereBound` nested goal in
`BestObligation::visit_goal`: derived cause, the nested goal's environment
and predicate, and an incremented recursion depth. -/
def impl_where_obligation (cx : InferCtxt S) (kind : ProbeKind) (ob : Obligation)
    (parent_trait_pred : Nat) (idx : Nat) (t : PTree) : Obligation :=
  { cause := derive_cause cx kind ob.cause idx parent_trait_pred
    param_env := t.param_env
    predicate := t.predicate
    recursion_depth := ob.recursion_depth + 1 }

/-- Rust's `?` on `ControlFlow`: a `Break` (`some`) propagates, a
`Continue` (`none`) falls through to the rest of the loop. -/
def or_continue (r : Option Obligation) (k : Option Obligation) : Option Obligation :=
  match r with
  | some broken => some broken
  | none => k

mutual

/-- `BestObligation::visit_goal`: at a goal with anything but exactly one
candidate, or without a trait-predicate shape, break with the obligation
currently being visited; otherwise walk the single candidate's nested
goals and, if none of them breaks, break with the current obligation. -/
def visit_goal (cx : InferCtxt S) (ob : Obligation) : PTree → Option Obligation
  | .node pe pred res cands =>
    match cands with
    | [cand] =>
      match to_opt_poly_trait_pred pred with
      | none => some ob
      | some parent_trait_pred =>
        or_continue (visit_nested cx ob cand.1 parent_trait_pred 0 cand.2) (some ob)
    | _ => some ob

/-- The loop over `candidate.instantiate_nested_goals(..)` inside
`BestObligation::visit_goal`: `Misc` children are skipped; an
`ImplWhereBound` child gets a derived obligation citing where-clause number
`iwb_count` and bumps the count (even when the child is then skipped for
holding); an `InstantiateHigherRanked` child inherits the obligation
unchanged; children whose own verdict is `Certainty::Yes` are skipped; the
rest are visited, with a `Break` propagating out. -/
def visit_nested (cx : InferCtxt S) (ob : Obligation) (kind : ProbeKind)
    (parent_trait_pred : Nat) (iwb_count : Nat) :
    List (GoalSource × PTree) → Option Obligation
  | [] => none
  | (src, t) :: rest =>
    match src with
    | .misc => visit_nested cx ob kind parent_trait_pred iwb_count rest
    | .implWhereBound =>
      match t.result with
      | .ok .yes => visit_nested cx ob kind parent_trait_pred (iwb_count + 1) rest
      | _ =>
        or_continue (visit_goal cx (impl_where_obligation cx kind ob parent_trait_pred iwb_count t) t)
          (visit_nested cx ob kind parent_trait_pred (iwb_count + 1) rest)
    | .instantiateHigherRanked =>
      match t.result with
      | .ok .yes => visit_nested cx ob kind parent_trait_pred iwb_count rest
      | _ =>
        or_continue (visit_goal cx ob t)
          (visit_nested cx ob kind parent_trait_pred iwb_count rest)

end

/-- `find_best_leaf_obligation`: resolve inference variables as far as
possible, then walk the proof tree; `break_value().unwrap_or(..)` keeps the
resolved root when the walk does not break. -/
def find_best_leaf_obligation (cx : InferCtxt S) (s : S) (obligation : Obligation) : Obligation :=
  let obligation := cx.resolve_vars_if_possible s obligation
  (visit_goal cx obligation (cx.proof_tree s obligation.goal)).getD obligation

/-- `fulfillment_error_for_no_solution`: find the best failing leaf, then
classify by the leaf predicate's shape. A `ConstEquate` predicate reaching
this point is `bug!` (embedded as `Except.error`). -/
def fulfillment_error_for_no_solution (cx : InferCtxt S) (s : S)
    (root_obligation : Obligation) : Except String FulfillmentError :=
  let obligation := find_best_leaf_obligation cx s root_obligation
  match obligation.predicate with
  | .clauseProjection =>
    Except.ok { obligation := obligation, code := .projectionError, root_obligation := root_obligation }
  | .normalizesTo =>
    Except.ok { obligation := obligation, code := .projectionError, root_obligation := root_obligation }
  | .aliasRelate =>
    Except.ok { obligation := obligation, code := .projectionError, root_obligation := root_obligation }
  | .subtype a b =>
    Except.ok { obligation := obligation
                code := .subtypeError (ExpectedFound.new true a b)
                root_obligation := root_obligation }
  | .coerce a b =>
    Except.ok { obligation := obligation
                code := .subtypeError (ExpectedFound.new false a b)
                root_obligation := root_obligation }
  | .clauseTrait _ =>
    Except.ok { obligation := obligation, code := .selectionError, root_obligation := root_obligation }
  | .clauseOther =>
    Except.ok { obligation := obligation, code := .selectionError, root_obligation := root_obligation }
  | .objectSafe =>
    Except.ok { obligation := obligation, code := .selectionError, root_obligation := root_obligation }
  | .ambiguous =>
    Except.ok { obligation := obligation, code := .selectionError, root_obligation := root_obligation }
  | .constEquate => Except.error "unexpected goal: ConstEquate"

/-- `fulfillment_error_for_stalled`: re-probe the obligation inside
`infcx.probe` (the speculative evaluation's state is discarded, only the
result is kept) and classify the ambiguity reason; an unexpected
`Certainty::Yes` or a selection error here is `bug!`. -/
def fulfillment_error_for_stalled (cx : InferCtxt S) (s : S)
    (obligation : Obligation) : Except String FulfillmentError :=
  match (cx.evaluate_root_goal s obligation.goal).2 with
  | .ok (_, .maybe .ambiguity) =>
    Except.ok { obligation := find_best_leaf_obligation cx s obligation
                code := .ambiguity none
                root_obligation := obligation }
  | .ok (_, .maybe (.overflow suggest_increasing_limit)) =>
    Except.ok { obligation := find_best_leaf_obligation cx s obligation
                code := .ambiguity (some suggest_increasing_limit)
                root_obligation := obligation }
  | .ok (_, .yes) =>
    Except.error "did not expect successful goal when collecting ambiguity errors"
  | .error _ =>
    Except.error "did not expect selection error when collecting ambiguity errors"

/-- `ObligationStorage`: the active worklist plus the overflow quarantine. -/
structure ObligationStorage where
  overflowed : List Obligation
  pending : List Obligation
deriving DecidableEq, Repr

/-- `ObligationStorage::register`: push onto `pending`. -/
def ObligationStorage.register (st : ObligationStorage) (o : Obligation) : ObligationStorage :=
  { st with pending := st.pending ++ [o] }

/-- `ObligationStorage::clone_pending`: pending followed by overflowed. -/
def ObligationStorage.clone_pending (st : ObligationStorage) : List Obligation :=
  st.pending ++ st.overflowed

/-- `ObligationStorage::take_pending`: drain both collections, pending
first, and return the emptied storage alongside. -/
def ObligationStorage.take_pending (st : ObligationStorage) :
    ObligationStorage × List Obligation :=
  ({ overflowed := [], pending := [] }, st.pending ++ st.overflowed)

/-- The `Vec::extract_if` pass inside `on_fulfillment_overflow`: evaluate
each pending obligation in order (threading the probe's inference state
through the successive speculative evaluations) and split the list into
the kept obligations and the extracted ones -- extracted exactly when the
oracle answered `Ok` with `has_changed` true. -/
def overflow_extract (cx : InferCtxt S) : S → List Obligation → List Obligation × List Obligation
  | _, [] => ([], [])
  | s, o :: rest =>
    let step := cx.evaluate_root_goal s o.goal
    let extract : Bool :=
      match step.2 with
      | .ok (has_changed, _) => has_changed
      | .error _ => false
    let tail := overflow_extract cx step.1 rest
    if extract then (tail.1, o :: tail.2) else (o :: tail.1, tail.2)

/-- `ObligationStorage::on_fulfillment_overflow`: inside `infcx.probe`
(whose state mutations are rolled back on exit, so only the storage update
escapes), extend `overflowed` with exactly those pending obligations whose
speculative re-evaluation would still change something, keeping the rest
pending. -/
def ObligationStorage.on_fulfillment_overflow (st : ObligationStorage)
    (cx : InferCtxt S) (s : S) : ObligationStorage :=
  let split := overflow_extract cx s st.pending
  { overflowed := st.overflowed ++ split.2, pending := split.1 }

/-- `FulfillmentCtxt`: the obligation storage plus the snapshot generation
recorded at construction. -/
structure FulfillmentCtxt where
  obligations : ObligationStorage
  usable_in_snapshot : Nat
deriving DecidableEq, Repr

/-- `FulfillmentCtxt::new`: asserts that the inference context is
configured for the new trait solver and records the current open-snapshot
count. -/
def FulfillmentCtxt.new (cx : InferCtxt S) (s : S) : Except String FulfillmentCtxt :=
  if cx.next_trait_solver then
    Except.ok { obligations := { overflowed := [], pending := [] }
                usable_in_snapshot := cx.num_open_snapshots s }
  else
    Except.error "new trait solver fulfillment context created for old solver infcx"

/-- `register_predicate_obligation`: assert the snapshot generation still
matches, then push the obligation. -/
def register_predicate_obligation (c : FulfillmentCtxt) (cx : InferCtxt S) (s : S)
    (obligation : Obligation) : Except String FulfillmentCtxt :=
  if c.usable_in_snapshot = cx.num_open_snapshots s then
    Except.ok { c with obligations := c.obligations.register obligation }
  else
    Except.error "assert_eq failed: usable_in_snapshot vs num_open_snapshots"

/-- The `drain(..).map(fulfillment_error_for_stalled).collect()` pass of
`collect_remaining_errors`, with a `bug!` on any element aborting the
whole call. -/
def collect_stalled (cx : InferCtxt S) (s : S) :
    List Obligation → Except String (List FulfillmentError)
  | [] => Except.ok []
  | o :: rest =>
    match fulfillment_error_for_stalled cx s o with
    | .error msg => Except.error msg
    | .ok e =>
      match collect_stalled cx s rest with
      | .error msg => Except.error msg
      | .ok es => Except.ok (e :: es)

/-- `collect_remaining_errors`: drain `pending` through
`fulfillment_error_for_stalled`, then append an overflow-ambiguity error
(built directly, with no re-probe) for each drained `overflowed`
obligation. -/
def collect_remaining_errors (c : FulfillmentCtxt) (cx : InferCtxt S) (s : S) :
    Except String (FulfillmentCtxt × List FulfillmentError) :=
  match collect_stalled cx s c.obligations.pending with
  | .error msg => Except.error msg
  | .ok errors =>
    let overflowErrors := c.obligations.overflowed.map fun obligation =>
      { obligation := find_best_leaf_obligation cx s obligation
        code := FulfillmentErrorCode.ambiguity (some true)
        root_obligation := obligation }
    Except.ok ({ c with obligations := { overflowed := [], pending := [] } },
      errors ++ overflowErrors)

/-- One round of the `select_where_possible` loop over the drained pending
list (`unstalled_for_select` empties `pending`, so re-registered
obligations land in the next round's worklist). Returns the state after
the round, the evaluation trace (the pairs the obligation inspector hook
observes, with the full oracle result), the re-registered obligations, the
errors built this round, and the round's did-anything-change flag. -/
def process_round (cx : InferCtxt S) : S → List Obligation →
    Except String (S × List (Obligation × EvalResult) × List Obligation ×
      List FulfillmentError × Bool)
  | s, [] => Except.ok (s, [], [], [], false)
  | s, obligation :: rest =>
    match (cx.evaluate_root_goal s obligation.goal).2 with
    | .error n =>
      match fulfillment_error_for_no_solution cx (cx.evaluate_root_goal s obligation.goal).1 obligation with
      | .error msg => Except.error msg
      | .ok e =>
        match process_round cx (cx.evaluate_root_goal s obligation.goal).1 rest with
        | .error msg => Except.error msg
        | .ok (s2, tr, pend, errs, hc) =>
          Except.ok (s2, (obligation, Except.error n) :: tr, pend, e :: errs, hc)
    | .ok (changed, certainty) =>
      match process_round cx (cx.evaluate_root_goal s obligation.goal).1 rest with
      | .error msg => Except.error msg
      | .ok (s2, tr, pend, errs, hc) =>
        match certainty with
        | .yes =>
          Except.ok (s2, (obligation, Except.ok (changed, certainty)) :: tr,
            pend, errs, changed || hc)
        | .maybe _ =>
          Except.ok (s2, (obligation, Except.ok (changed, certainty)) :: tr,
            obligation :: pend, errs, changed || hc)

/-- The `for i in 0..` loop of `select_where_possible`, indexed by the
number of rounds the recursion limit still permits: with
`Limit::value_within_limit(i) = i <= limit`, rounds run for
`i = 0, 1, ..., limit` and the check fails at `i = limit + 1`, so the loop
is started with `limit + 1` permitted rounds and `n = limit + 1 - i`.
At exhaustion, quarantine via `on_fulfillment_overflow` and return only
the errors accumulated while processing; otherwise run one round and stop
as soon as a round's did-anything-change flag stays false. -/
def fixpoint_rounds (cx : InferCtxt S) :
    Nat → S → ObligationStorage → List FulfillmentError →
    Except String (S × ObligationStorage × List FulfillmentError)
  | 0, s, st, errors => Except.ok (s, st.on_fulfillment_overflow cx s, errors)
  | n + 1, s, st, errors =>
    match process_round cx s st.pending with
    | .error msg => Except.error msg
    | .ok (s', _tr, pend, roundErrors, has_changed) =>
      if has_changed then
        fixpoint_rounds cx n s' { overflowed := st.overflowed, pending := pend }
          (errors ++ roundErrors)
      else
        Except.ok (s', { overflowed := st.overflowed, pending := pend },
          errors ++ roundErrors)

/-- `select_where_possible`: assert the snapshot generation, then run the
fixpoint loop under the recursion limit. -/
def select_where_possible (c : FulfillmentCtxt) (cx : InferCtxt S) (s : S) :
    Except String (S × FulfillmentCtxt × List FulfillmentError) :=
  if c.usable_in_snapshot = cx.num_open_snapshots s then
    match fixpoint_rounds cx (cx.tcx.recursion_limit + 1) s c.obligations [] with
    | .error msg => Except.error msg
    | .ok (s', st', errors) => Except.ok (s', { c with obligations := st' }, errors)
  else
    Except.error "assert_eq failed: usable_in_snapshot vs num_open_snapshots"

/-- `pending_obligations`: the read-only combined view. -/
def pending_obligations (c : FulfillmentCtxt) : List Obligation :=
  c.obligations.clone_pending

/-- `drain_unstalled_obligations`: drains both collections; note that the
source ignores its `InferCtxt` argument entirely. -/
def drain_unstalled_obligations (c : FulfillmentCtxt) :
    FulfillmentCtxt × List Obligation :=
  (({ c with obligations := (c.obligations.take_pending).1 } : FulfillmentCtxt),
    (c.obligations.take_pending).2)

/-! Helper predicates on oracle results, used to state round properties. -/

/-- The oracle reported `Err(NoSolution)`. -/
def is_err_result : EvalResult → Bool
  | .error _ => true
  | _ => false

/-- The oracle reported `Ok(_, Certainty::Maybe(_))`. -/
def is_maybe_result : EvalResult → Bool
  | .ok (_, .maybe _) => true
  | _ => false

/-- The `changed` flag the round ORs into `has_changed`: the boolean of an
`Ok` result, and nothing for an error (the error path `continue`s before
the flag update). -/
def changed_result : EvalResult → Bool
  | .ok (changed, _) => changed
  | .error _ => false

/-- The number of `ImplWhereBound`-sourced children in a nested-goal list:
the amount by which the candidate's running where-clause counter advances
across them. -/
def count_impl_where_bound (l : List (GoalSource × PTree)) : Nat :=
  l.countP fun p => decide (p.1 = GoalSource.implWhereBound)

/-! A small concrete instantiation of the external capabilities, used to
exercise the engine on closed inputs: the abstract inference state is a
counter bumped by every evaluation, and the oracle's verdict is read off
the goal's predicate shape. -/

/-- A root cause with no attribution. -/
def exCause : ObligationCause :=
  { span := 0, code := CauseCode.misc }

/-- An obligation with the given predicate and trivial everything else. -/
def exOb (p : PredicateKind) : Obligation :=
  { cause := exCause, param_env := 0, predicate := p, recursion_depth := 0 }

/-- A concrete oracle: ambiguous predicates fail with `NoSolution`, trait
clauses are proven with progress, other clauses stall ambiguously, object
safety stalls with overflow, everything else is proven without progress. -/
def exEval : Nat → Goal → Nat × EvalResult := fun s g =>
  (s + 1,
    match g.predicate with
    | .ambiguous => Except.error {}
    | .clauseTrait _ => Except.ok (true, Certainty.yes)
    | .clauseOther => Except.ok (false, Certainty.maybe MaybeCause.ambiguity)
    | .objectSafe => Except.ok (false, Certainty.maybe (MaybeCause.overflow true))
    | _ => Except.ok (false, Certainty.yes))

/-- A concrete inference context over counter states: the open-snapshot
count is the state itself, proof trees are single candidate-free nodes
(so every best-leaf walk stops at the root), and resolution is the
identity. -/
def exInfcx : InferCtxt Nat :=
  { tcx := { predicates_of := fun _ => [7, 8, 9], recursion_limit := 2 }
    next_trait_solver := true
    num_open_snapshots := fun s => s
    evaluate_root_goal := exEval
    proof_tree := fun _ g => PTree.node g.param_env g.predicate (Except.ok Certainty.yes) []
    resolve_vars_if_possible := fun _ o => o }

/-! ## Helper lemmas -/

/-- The extraction flag computed inside `on_fulfillment_overflow` is the
`changed` component of the oracle's answer. -/
theorem extract_flag_eq (x : EvalResult) :
    (match x with
      | Except.ok (has_changed, _) => has_changed
      | Except.error _ => false) = changed_result x := by
  cases x with
  | ok p => obtain ⟨c, cert⟩ := p; rfl
  | error n => rfl

/-- A stalled obligation whose classification aborts makes the whole
drain-and-classify pass abort. -/
theorem collect_stalled_error_of_mem (cx : InferCtxt S) (s : S)
    (l : List Obligation) (o : Obligation) (m : String)
    (hmem : o ∈ l) (hf : fulfillment_error_for_stalled cx s o = Except.error m) :
    ∃ msg, collect_stalled cx s l = Except.error msg := by
  induction l with
  | nil => cases hmem
  | cons a rest ih =>
    rcases List.mem_cons.mp hmem with rfl | hmem2
    · exact ⟨m, by simp [collect_stalled, hf]⟩
    · cases ha : fulfillment_error_for_stalled cx s a with
      | error msg => exact ⟨msg, by simp [collect_stalled, ha]⟩
      | ok e =>
        obtain ⟨msg, hrec⟩ := ih hmem2
        exact ⟨msg, by simp [collect_stalled, ha, hrec]⟩

/-- Whatever the fixpoint loop returns extends the error list it was
started with: later rounds only append. -/
theorem fixpoint_rounds_errors_extend (cx : InferCtxt S) :
    ∀ (n : Nat) (s : S) (st : ObligationStorage) (errs : List FulfillmentError)
      (out : S × ObligationStorage × List FulfillmentError),
      fixpoint_rounds cx n s st errs = Except.ok out →
      ∃ tail, out.2.2 = errs ++ tail := by
  intro n
  induction n with
  | zero =>
    intro s st errs out h
    simp only [fixpoint_rounds, Except.ok.injEq] at h
    exact ⟨[], by rw [← h]; simp⟩
  | succ n ih =>
    intro s st errs out h
    simp only [fixpoint_rounds] at h
    cases hpr : process_round cx s st.pending with
    | error msg => rw [hpr] at h; exact absurd h (by simp)
    | ok res =>
      obtain ⟨s', tr, pend, rerrs, hcv⟩ := res
      rw [hpr] at h
      cases hcv with
      | true =>
        simp only [if_pos rfl] at h
        obtain ⟨tail, htail⟩ := ih _ _ _ _ h
        exact ⟨rerrs ++ tail, by rw [htail, List.append_assoc]⟩
      | false =>
        simp only [Bool.false_eq_true, if_false, Except.ok.injEq] at h
        exact ⟨rerrs, by rw [← h]⟩

/-- Under an oracle whose answers do not depend on the threaded inference
state, the quarantine pass is a filter on the `changed` flag. -/
theorem overflow_extract_eq_filter (cx : InferCtxt S) (r : Goal → EvalResult)
    (hr : ∀ (s2 : S) (g : Goal), (cx.evaluate_root_goal s2 g).2 = r g) :
    ∀ (s : S) (l : List Obligation),
      overflow_extract cx s l =
        (l.filter (fun o => !changed_result (r o.goal)),
         l.filter (fun o => changed_result (r o.goal))) := by
  intro s l
  induction l generalizing s with
  | nil => simp [overflow_extract]
  | cons o rest ih =>
    simp only [overflow_extract]
    rw [extract_flag_eq, hr, ih]
    cases hcr : changed_result (r o.goal) <;> simp [List.filter, hcr]

/-- Every successful no-solution classification keeps the drained
obligation as the error's root. -/
theorem no_solution_root (cx : InferCtxt S) (s : S) (root : Obligation)
    (e : FulfillmentError)
    (h : fulfillment_error_for_no_solution cx s root = Except.ok e) :
    e.root_obligation = root := by
  cases hp : (find_best_leaf_obligation cx s root).predicate <;>
    simp [fulfillment_error_for_no_solution, hp] at h <;>
    rw [← h]

/-- Characterization of one round of the fixpoint loop: the evaluation
trace lists each drained obligation exactly once in order; the
re-registered obligations are exactly the `Maybe` ones; the errors built
are exactly the `NoSolution` ones (rooted at those obligations); and the
did-anything-change flag is the OR of the `changed` component over all
`Ok` answers. -/
theorem process_round_spec (cx : InferCtxt S) :
    ∀ (l : List Obligation) (s s' : S) (tr : List (Obligation × EvalResult))
      (pend : List Obligation) (errs : List FulfillmentError) (hc : Bool),
      process_round cx s l = Except.ok (s', tr, pend, errs, hc) →
      tr.map Prod.fst = l ∧
      pend = (tr.filter fun p => is_maybe_result p.2).map Prod.fst ∧
      errs.map FulfillmentError.root_obligation =
        (tr.filter fun p => is_err_result p.2).map Prod.fst ∧
      hc = (tr.any fun p => changed_result p.2) := by
  intro l
  induction l with
  | nil =>
    intro s s' tr pend errs hc h
    simp only [process_round, Except.ok.injEq, Prod.mk.injEq] at h
    obtain ⟨rfl, rfl, rfl, rfl, rfl⟩ := h
    simp
  | cons o rest ih =>
    intro s s' tr pend errs hc h
    simp only [process_round] at h
    split at h
    · -- oracle answered Err(NoSolution)
      rename_i n heval
      split at h
      · exact absurd h (by simp)
      · rename_i e herr
        split at h
        · exact absurd h (by simp)
        · rename_i s2 tr2 pend2 errs2 hc2 hrec
          simp only [Except.ok.injEq, Prod.mk.injEq] at h
          obtain ⟨rfl, rfl, rfl, rfl, rfl⟩ := h
          obtain ⟨ih1, ih2, ih3, ih4⟩ := ih _ _ _ _ _ _ hrec
          refine ⟨by simp [ih1], ?_, ?_, ?_⟩
          · simp [List.filter_cons, is_maybe_result, ih2]
          · simp [List.filter_cons, is_err_result, ih3,
              no_solution_root cx _ o e herr]
          · simp [List.any_cons, changed_result, ih4]
    · -- oracle answered Ok(changed, certainty)
      rename_i changed certainty heval
      split at h
      · exact absurd h (by simp)
      · rename_i s2 tr2 pend2 errs2 hc2 hrec
        obtain ⟨ih1, ih2, ih3, ih4⟩ := ih _ _ _ _ _ _ hrec
        cases certainty with
        | yes =>
          simp only [Except.ok.injEq, Prod.mk.injEq] at h
          obtain ⟨rfl, rfl, rfl, rfl, rfl⟩ := h
          refine ⟨by simp [ih1], ?_, ?_, ?_⟩
          · simp [List.filter_cons, is_maybe_result, ih2]
          · simp [List.filter_cons, is_err_result, ih3]
          · simp [List.any_cons, changed_result, ih4]
        | maybe mc =>
          simp only [Except.ok.injEq, Prod.mk.injEq] at h
          obtain ⟨rfl, rfl, rfl, rfl, rfl⟩ := h
          refine ⟨by simp [ih1], ?_, ?_, ?_⟩
          · simp [List.filter_cons, is_maybe_result, ih2]
          · simp [List.filter_cons, is_err_result, ih3]
          · simp [List.any_cons, changed_result, ih4]

/-! ## Claims -/

/-- C1 (amended): in one round, each drained obligation is evaluated
exactly once, in order (the trace is the drained list); `Err(NoSolution)`
builds an error rooted at that obligation and drops it (it is not
re-registered); `Ok(_, Yes)` drops it as solved; `Ok(_, Maybe(_))`
re-registers it for the next round; the round's did-anything-change flag
is the OR of the `changed` component over all `Ok` outcomes (so a solved
obligation with `changed = false` records no progress); and a round whose
flag stays false ends the loop at once with the errors accumulated so
far plus this round's. -/
theorem c1_round_outcomes (cx : InferCtxt S) (s : S) (l : List Obligation)
    (s' : S) (tr : List (Obligation × EvalResult)) (pend : List Obligation)
    (errs : List FulfillmentError) (hc : Bool)
    (h : process_round cx s l = Except.ok (s', tr, pend, errs, hc)) :
    tr.map Prod.fst = l ∧
    pend = (tr.filter fun p => is_maybe_result p.2).map Prod.fst ∧
    errs.map FulfillmentError.root_obligation =
      (tr.filter fun p => is_err_result p.2).map Prod.fst ∧
    hc = (tr.any fun p => changed_result p.2) ∧
    (hc = false → ∀ (n : Nat) (st : ObligationStorage) (errs0 : List FulfillmentError),
      st.pending = l →
      fixpoint_rounds cx (n + 1) s st errs0 =
        Except.ok (s', { overflowed := st.overflowed, pending := pend },
          errs0 ++ errs)) := by
  obtain ⟨h1, h2, h3, h4⟩ := process_round_spec cx l s s' tr pend errs hc h
  refine ⟨h1, h2, h3, h4, ?_⟩
  rintro rfl n st errs0 rfl
  simp [fixpoint_rounds, h]

/-- C1 counterexample: an obligation the oracle solves (`Certainty::Yes`)
with `changed = false` is dropped, but the round's did-anything-change
flag stays false -- no progress is recorded for solving it -- and the
loop therefore stops at its first round. -/
theorem c1_counterexample :
    process_round exInfcx 0 [exOb PredicateKind.clauseProjection] =
      Except.ok (1,
        [(exOb PredicateKind.clauseProjection, Except.ok (false, Certainty.yes))],
        [], [], false) ∧
    fixpoint_rounds exInfcx (exInfcx.tcx.recursion_limit + 1) 0
      { overflowed := [], pending := [exOb PredicateKind.clauseProjection] } [] =
      Except.ok (1, { overflowed := [], pending := [] }, []) :=
  ⟨rfl, rfl⟩

/-- C2: once the round index exceeds the recursion limit (no permitted
rounds remain), the loop quarantines still-progressing pending obligations
via `on_fulfillment_overflow` and returns exactly the errors accumulated
in earlier rounds; and in general the returned error list always extends
the accumulated one, so earlier errors are never discarded. -/
theorem c2_budget_returns_accumulated_errors (cx : InferCtxt S) (n : Nat) (s : S)
    (st : ObligationStorage) (errs : List FulfillmentError)
    (out : S × ObligationStorage × List FulfillmentError)
    (h : fixpoint_rounds cx n s st errs = Except.ok out) :
    (∃ tail, out.2.2 = errs ++ tail) ∧
    (n = 0 → out = (s, st.on_fulfillment_overflow cx s, errs)) := by
  refine ⟨fixpoint_rounds_errors_extend cx n s st errs out h, ?_⟩
  rintro rfl
  simp only [fixpoint_rounds, Except.ok.injEq] at h
  exact h.symm

/-- C4: under a state-independent oracle (the quarantine runs inside a
probe whose mutations are discarded anyway), `on_fulfillment_overflow`
moves into `overflowed` exactly the pending obligations whose speculative
re-evaluation answers `Ok` with `changed = true`, appending them in order,
and keeps every other pending obligation (unchanged or `NoSolution`)
pending. -/
theorem c4_quarantine_exactly_changed (cx : InferCtxt S) (r : Goal → EvalResult)
    (hr : ∀ (s2 : S) (g : Goal), (cx.evaluate_root_goal s2 g).2 = r g)
    (s : S) (st : ObligationStorage) :
    st.on_fulfillment_overflow cx s =
      { overflowed := st.overflowed ++ st.pending.filter (fun o => changed_result (r o.goal)),
        pending := st.pending.filter (fun o => !changed_result (r o.goal)) } := by
  simp [ObligationStorage.on_fulfillment_overflow,
    overflow_extract_eq_filter cx r hr s st.pending]

/-- C3: a stalled pending obligation is classified by one side-effect-free
re-probe: a `Maybe(Ambiguity)` verdict yields an ambiguity error with no
overflow flag, a `Maybe(Overflow)` verdict an ambiguity error carrying the
suggest-increasing-limit hint; and whatever `collect_remaining_errors`
returns is the classified pending errors followed by one direct
`Ambiguity with overflow = Some(true)` error per overflowed obligation,
built with no re-probe. -/
theorem c3_stalled_classification (cx : InferCtxt S) (s : S) :
    (∀ (o : Obligation) (ch : Bool),
      (cx.evaluate_root_goal s o.goal).2 =
        Except.ok (ch, Certainty.maybe MaybeCause.ambiguity) →
      fulfillment_error_for_stalled cx s o =
        Except.ok { obligation := find_best_leaf_obligation cx s o
                    code := FulfillmentErrorCode.ambiguity none
                    root_obligation := o }) ∧
    (∀ (o : Obligation) (ch hint : Bool),
      (cx.evaluate_root_goal s o.goal).2 =
        Except.ok (ch, Certainty.maybe (MaybeCause.overflow hint)) →
      fulfillment_error_for_stalled cx s o =
        Except.ok { obligation := find_best_leaf_obligation cx s o
                    code := FulfillmentErrorCode.ambiguity (some hint)
                    root_obligation := o }) ∧
    (∀ (c c' : FulfillmentCtxt) (errs : List FulfillmentError),
      collect_remaining_errors c cx s = Except.ok (c', errs) →
      ∃ perrs, collect_stalled cx s c.obligations.pending = Except.ok perrs ∧
        errs = perrs ++ c.obligations.overflowed.map (fun o =>
          { obligation := find_best_leaf_obligation cx s o
            code := FulfillmentErrorCode.ambiguity (some true)
            root_obligation := o })) := by
  refine ⟨?_, ?_, ?_⟩
  · intro o ch h
    simp [fulfillment_error_for_stalled, h]
  · intro o ch hint h
    simp [fulfillment_error_for_stalled, h]
  · intro c c' errs h
    cases hcs : collect_stalled cx s c.obligations.pending with
    | error msg =>
      rw [collect_remaining_errors, hcs] at h
      exact absurd h (by simp)
    | ok perrs =>
      rw [collect_remaining_errors, hcs] at h
      simp only [Except.ok.injEq, Prod.mk.injEq] at h
      exact ⟨perrs, rfl, h.2.symm⟩

/-- C5: a failed subtype requirement `a <: b` is classified as a subtype
error with expected = b and found = a, and a failed coercion requirement
as a subtype error with the reversed polarity (expected = a, found = b). -/
theorem c5_subtype_coercion_direction (cx : InferCtxt S) (s : S)
    (root : Obligation) (a b : Nat) :
    ((find_best_leaf_obligation cx s root).predicate = PredicateKind.subtype a b →
      fulfillment_error_for_no_solution cx s root =
        Except.ok { obligation := find_best_leaf_obligation cx s root
                    code := FulfillmentErrorCode.subtypeError { expected := b, found := a }
                    root_obligation := root }) ∧
    ((find_best_leaf_obligation cx s root).predicate = PredicateKind.coerce a b →
      fulfillment_error_for_no_solution cx s root =
        Except.ok { obligation := find_best_leaf_obligation cx s root
                    code := FulfillmentErrorCode.subtypeError { expected := a, found := b }
                    root_obligation := root }) := by
  constructor <;> intro h <;>
    simp [fulfillment_error_for_no_solution, h, ExpectedFound.new]

/-- C6: internal-consistency violations abort instead of producing a
`FulfillmentError`: a `ConstEquate` leaf predicate reaching no-solution
classification is a `bug!`, and so is a re-probe during stalled
classification that answers `Certainty::Yes` or `Err(NoSolution)`. -/
theorem c6_internal_inconsistency_aborts (cx : InferCtxt S) (s : S) :
    (∀ root : Obligation,
      (find_best_leaf_obligation cx s root).predicate = PredicateKind.constEquate →
      fulfillment_error_for_no_solution cx s root =
        Except.error "unexpected goal: ConstEquate") ∧
    (∀ (o : Obligation) (ch : Bool),
      (cx.evaluate_root_goal s o.goal).2 = Except.ok (ch, Certainty.yes) →
      fulfillment_error_for_stalled cx s o =
        Except.error "did not expect successful goal when collecting ambiguity errors") ∧
    (∀ (o : Obligation) (n : NoSolution),
      (cx.evaluate_root_goal s o.goal).2 = Except.error n →
      fulfillment_error_for_stalled cx s o =
        Except.error "did not expect selection error when collecting ambiguity errors") := by
  refine ⟨?_, ?_, ?_⟩
  · intro root h
    simp [fulfillment_error_for_no_solution, h]
  · intro o ch h
    simp [fulfillment_error_for_stalled, h]
  · intro o n h
    simp [fulfillment_error_for_stalled, h]

/-- C10: a pending obligation whose speculative quarantine re-evaluation
answers `Err(NoSolution)` is treated as making no progress -- it stays in
`pending` and is not extracted into `overflowed`; and a later
`collect_remaining_errors` whose re-probe of such an obligation still
errors hits the fatal branch, so the whole call aborts instead of
reporting an error for it. -/
theorem c10_nosolution_not_quarantined (cx : InferCtxt S) (s : S) :
    (∀ (o : Obligation) (rest : List Obligation) (n : NoSolution),
      (cx.evaluate_root_goal s o.goal).2 = Except.error n →
      overflow_extract cx s (o :: rest) =
        (o :: (overflow_extract cx (cx.evaluate_root_goal s o.goal).1 rest).1,
         (overflow_extract cx (cx.evaluate_root_goal s o.goal).1 rest).2)) ∧
    (∀ (c : FulfillmentCtxt) (o : Obligation) (n : NoSolution),
      o ∈ c.obligations.pending →
      (cx.evaluate_root_goal s o.goal).2 = Except.error n →
      ∃ msg, collect_remaining_errors c cx s = Except.error msg) := by
  constructor
  · intro o rest n h
    simp only [overflow_extract]
    rw [extract_flag_eq, h]
    simp [changed_result]
  · intro c o n hmem h
    have hst : fulfillment_error_for_stalled cx s o =
        Except.error "did not expect selection error when collecting ambiguity errors" := by
      simp [fulfillment_error_for_stalled, h]
    obtain ⟨msg, hcs⟩ := collect_stalled_error_of_mem cx s _ o _ hmem hst
    exact ⟨msg, by simp [collect_remaining_errors, hcs]⟩

/-- Inserting a `Misc` nested goal anywhere in a candidate's nested-goal
list changes nothing: it is skipped without halting descent and without
advancing the where-clause counter. -/
theorem visit_nested_skips_misc (cx : InferCtxt S) (ob : Obligation)
    (kind : ProbeKind) (ptp : Nat) (t : PTree) (l2 : List (GoalSource × PTree)) :
    ∀ (l1 : List (GoalSource × PTree)) (cnt : Nat),
      visit_nested cx ob kind ptp cnt (l1 ++ (GoalSource.misc, t) :: l2) =
        visit_nested cx ob kind ptp cnt (l1 ++ l2) := by
  intro l1
  induction l1 with
  | nil =>
    intro cnt
    simp [visit_nested]
  | cons p l1' ih =>
    intro cnt
    obtain ⟨src, u⟩ := p
    cases src with
    | misc =>
      simp only [List.cons_append, visit_nested]
      exact ih cnt
    | implWhereBound =>
      cases hres : u.result with
      | error n =>
        simp only [List.cons_append, visit_nested, hres, List.append_eq]
        rw [ih (cnt + 1)]
      | ok c =>
        cases c with
        | yes =>
          simp only [List.cons_append, visit_nested, hres, List.append_eq]
          exact ih (cnt + 1)
        | maybe mc =>
          simp only [List.cons_append, visit_nested, hres, List.append_eq]
          rw [ih (cnt + 1)]
    | instantiateHigherRanked =>
      cases hres : u.result with
      | error n =>
        simp only [List.cons_append, visit_nested, hres, List.append_eq]
        rw [ih cnt]
      | ok c =>
        cases c with
        | yes =>
          simp only [List.cons_append, visit_nested, hres, List.append_eq]
          exact ih cnt
        | maybe mc =>
          simp only [List.cons_append, visit_nested, hres, List.append_eq]
          rw [ih cnt]

/-- Walking past a prefix of skipped children (each either `Misc` or
holding with `Certainty::Yes`), the first pursued `ImplWhereBound` child
is visited with a derived obligation whose where-clause index is the
count of `ImplWhereBound` children in that prefix -- not the prefix's
length. -/
theorem visit_nested_iwb_at_count (cx : InferCtxt S) (ob : Obligation)
    (kind : ProbeKind) (ptp : Nat) (t : PTree) (l2 : List (GoalSource × PTree))
    (ht : t.result ≠ Except.ok Certainty.yes) :
    ∀ (l1 : List (GoalSource × PTree)) (cnt : Nat),
      (∀ p ∈ l1, p.1 = GoalSource.misc ∨ p.2.result = Except.ok Certainty.yes) →
      visit_nested cx ob kind ptp cnt (l1 ++ (GoalSource.implWhereBound, t) :: l2) =
        or_continue
          (visit_goal cx
            (impl_where_obligation cx kind ob ptp (cnt + count_impl_where_bound l1) t) t)
          (visit_nested cx ob kind ptp (cnt + count_impl_where_bound l1 + 1) l2) := by
  intro l1
  induction l1 with
  | nil =>
    intro cnt hskip
    rcases hr : t.result with n | c
    · simp [visit_nested, count_impl_where_bound, hr]
    · cases c with
      | yes => exact absurd hr ht
      | maybe mc => simp [visit_nested, count_impl_where_bound, hr]
  | cons p l1' ih =>
    intro cnt hskip
    have hskip' : ∀ p ∈ l1', p.1 = GoalSource.misc ∨ p.2.result = Except.ok Certainty.yes :=
      fun q hq => hskip q (List.mem_cons_of_mem p hq)
    obtain ⟨src, u⟩ := p
    rcases hskip (src, u) (List.mem_cons_self _ _) with hsrc | hres
    · -- a Misc child: skipped, counter unchanged
      simp only at hsrc
      subst hsrc
      simp only [List.cons_append, visit_nested, List.append_eq]
      rw [ih cnt hskip']
      simp [count_impl_where_bound, List.countP_cons]
    · -- a child that holds: skipped, an ImplWhereBound one advancing the counter
      simp only at hres
      cases src with
      | misc =>
        simp only [List.cons_append, visit_nested, List.append_eq]
        rw [ih cnt hskip']
        simp [count_impl_where_bound, List.countP_cons]
      | implWhereBound =>
        simp only [List.cons_append, visit_nested, hres, List.append_eq]
        rw [ih (cnt + 1) hskip']
        have harith : cnt + 1 + count_impl_where_bound l1' =
            cnt + count_impl_where_bound ((GoalSource.implWhereBound, u) :: l1') := by
          simp [count_impl_where_bound, List.countP_cons]
          omega
        rw [harith]
      | instantiateHigherRanked =>
        simp only [List.cons_append, visit_nested, hres, List.append_eq]
        rw [ih cnt hskip']
        simp [count_impl_where_bound, List.countP_cons]

/-- C7: the best-leaf walk stops, returning the obligation currently being
visited, at every goal with zero or several candidates; `Misc` nested
goals are skipped wherever they occur without halting descent, as are
nested goals whose own verdict is `Certainty::Yes` (an `ImplWhereBound`
one still advancing the where-clause counter); and exactly the failing or
uncertain `ImplWhereBound` / `InstantiateHigherRanked` nested goals are
pursued, a break propagating out of the loop. -/
theorem c7_descent_discipline (cx : InferCtxt S) (ob : Obligation)
    (kind : ProbeKind) (ptp cnt : Nat) :
    (∀ (pe : Nat) (pred : PredicateKind) (res : Except NoSolution Certainty)
       (cands : List (ProbeKind × List (GoalSource × PTree))),
      cands.length ≠ 1 →
      visit_goal cx ob (PTree.node pe pred res cands) = some ob) ∧
    (∀ (l1 l2 : List (GoalSource × PTree)) (t : PTree),
      visit_nested cx ob kind ptp cnt (l1 ++ (GoalSource.misc, t) :: l2) =
        visit_nested cx ob kind ptp cnt (l1 ++ l2)) ∧
    (∀ (t : PTree) (rest : List (GoalSource × PTree)),
      t.result = Except.ok Certainty.yes →
      visit_nested cx ob kind ptp cnt ((GoalSource.implWhereBound, t) :: rest) =
        visit_nested cx ob kind ptp (cnt + 1) rest ∧
      visit_nested cx ob kind ptp cnt ((GoalSource.instantiateHigherRanked, t) :: rest) =
        visit_nested cx ob kind ptp cnt rest) ∧
    (∀ (t : PTree) (rest : List (GoalSource × PTree)),
      t.result ≠ Except.ok Certainty.yes →
      visit_nested cx ob kind ptp cnt ((GoalSource.implWhereBound, t) :: rest) =
        or_continue (visit_goal cx (impl_where_obligation cx kind ob ptp cnt t) t)
          (visit_nested cx ob kind ptp (cnt + 1) rest) ∧
      visit_nested cx ob kind ptp cnt ((GoalSource.instantiateHigherRanked, t) :: rest) =
        or_continue (visit_goal cx ob t)
          (visit_nested cx ob kind ptp cnt rest)) := by
  refine ⟨?_, ?_, ?_, ?_⟩
  · intro pe pred res cands hlen
    cases cands with
    | nil => simp [visit_goal]
    | cons c0 cs =>
      cases cs with
      | nil => simp at hlen
      | cons c1 cs' => simp [visit_goal]
  · exact fun l1 l2 t => visit_nested_skips_misc cx ob kind ptp t l2 l1 cnt
  · intro t rest hres
    constructor <;> simp [visit_nested, hres]
  · intro t rest hres
    rcases hr : t.result with n | c
    · constructor <;> simp [visit_nested, hr]
    · cases c with
      | yes => exact absurd hr hres
      | maybe mc => constructor <;> simp [visit_nested, hr]

/-- C8: for an impl candidate, the cause derived for an `ImplWhereBound`
nested goal records the matched impl, the where-clause index and its span,
and the parent trait predicate; for a built-in candidate a generic
builtin-derived cause with no clause index is attached; and the index used
for a pursued `ImplWhereBound` child is the candidate's running count of
`ImplWhereBound` children seen before it, not the child's position among
all nested goals. -/
theorem c8_derived_cause (cx : InferCtxt S) (ob : Obligation) (kind : ProbeKind)
    (ptp cnt : Nat) :
    (∀ (d idx sp pt : Nat) (cause : ObligationCause),
      (cx.tcx.predicates_of d).get? idx = some sp →
      derive_cause cx (ProbeKind.traitCandidate (CandidateSource.impl d)) cause idx pt =
        { cause with
          code := CauseCode.implDerived d (some idx) sp pt cause.code }) ∧
    (∀ (idx pt : Nat) (cause : ObligationCause),
      derive_cause cx (ProbeKind.traitCandidate CandidateSource.builtinImpl) cause idx pt =
        { cause with code := CauseCode.builtinDerived pt cause.code }) ∧
    (∀ (l1 l2 : List (GoalSource × PTree)) (t : PTree),
      (∀ p ∈ l1, p.1 = GoalSource.misc ∨ p.2.result = Except.ok Certainty.yes) →
      t.result ≠ Except.ok Certainty.yes →
      visit_nested cx ob kind ptp cnt (l1 ++ (GoalSource.implWhereBound, t) :: l2) =
        or_continue
          (visit_goal cx
            (impl_where_obligation cx kind ob ptp (cnt + count_impl_where_bound l1) t) t)
          (visit_nested cx ob kind ptp (cnt + count_impl_where_bound l1 + 1) l2)) := by
  refine ⟨?_, ?_, ?_⟩
  · intro d idx sp pt cause h
    rw [List.get?_eq_getElem?] at h
    simp [derive_cause, h]
  · intro idx pt cause
    rfl
  · exact fun l1 l2 t hskip ht =>
      visit_nested_iwb_at_count cx ob kind ptp t l2 ht l1 cnt hskip

/-- A fulfillment context whose recorded snapshot generation no longer
matches the inference context's open-snapshot count at state 0. -/
def exStaleCtxt : FulfillmentCtxt :=
  { obligations := { overflowed := [], pending := [exOb PredicateKind.clauseOther] }
    usable_in_snapshot := 1 }

/-- C9 counterexample: with a stale snapshot generation (1 recorded, 0
current), `collect_remaining_errors` and `drain_unstalled_obligations`
still run to completion instead of aborting -- neither re-checks the
generation. -/
theorem c9_counterexample :
    exStaleCtxt.usable_in_snapshot ≠ exInfcx.num_open_snapshots 0 ∧
    collect_remaining_errors exStaleCtxt exInfcx 0 =
      Except.ok ({ obligations := { overflowed := [], pending := [] }
                   usable_in_snapshot := 1 },
        [{ obligation := exOb PredicateKind.clauseOther
           code := FulfillmentErrorCode.ambiguity none
           root_obligation := exOb PredicateKind.clauseOther }]) ∧
    drain_unstalled_obligations exStaleCtxt =
      ({ obligations := { overflowed := [], pending := [] }
         usable_in_snapshot := 1 },
       [exOb PredicateKind.clauseOther]) :=
  ⟨by decide, rfl, rfl⟩

/-- C9 (amended): only `register_predicate_obligation` and
`select_where_possible` re-check the recorded snapshot generation and
abort on mismatch; `drain_unstalled_obligations` (and
`collect_remaining_errors`, see the counterexample) act without any
generation check. -/
theorem c9_generation_check_scope (cx : InferCtxt S) (s : S) (c : FulfillmentCtxt)
    (o : Obligation) (h : c.usable_in_snapshot ≠ cx.num_open_snapshots s) :
    (∃ msg, register_predicate_obligation c cx s o = Except.error msg) ∧
    (∃ msg, select_where_possible c cx s = Except.error msg) ∧
    drain_unstalled_obligations c =
      ({ c with obligations := { overflowed := [], pending := [] } },
       c.obligations.pending ++ c.obligations.overflowed) := by
  refine ⟨?_, ?_, rfl⟩
  · exact ⟨"assert_eq failed: usable_in_snapshot vs num_open_snapshots",
      by simp [register_predicate_obligation, h]⟩
  · exact ⟨"assert_eq failed: usable_in_snapshot vs num_open_snapshots",
      by simp [select_where_possible, h]⟩

/-- C9 witness: the amended claim at the concrete stale context. -/
theorem c9_witness :
    (∃ msg, register_predicate_obligation exStaleCtxt exInfcx 0
      (exOb PredicateKind.clauseOther) = Except.error msg) ∧
    (∃ msg, select_where_possible exStaleCtxt exInfcx 0 = Except.error msg) ∧
    drain_unstalled_obligations exStaleCtxt =
      ({ exStaleCtxt with obligations := { overflowed := [], pending := [] } },
       exStaleCtxt.obligations.pending ++ exStaleCtxt.obligations.overflowed) :=
  c9_generation_check_scope exInfcx 0 exStaleCtxt (exOb PredicateKind.clauseOther) (by decide)

/-! ## Concrete witnesses -/

/-- A proof-tree leaf that holds. -/
def exLeafYes : PTree := PTree.node 0 PredicateKind.clauseOther (Except.ok Certainty.yes) []

/-- A proof-tree leaf that failed. -/
def exLeafFail : PTree := PTree.node 0 PredicateKind.clauseOther (Except.error {}) []

/-- The error the concrete oracle produces for an ambiguous predicate. -/
def exSelErr : FulfillmentError :=
  { obligation := exOb PredicateKind.ambiguous
    code := FulfillmentErrorCode.selectionError
    root_obligation := exOb PredicateKind.ambiguous }

/-- The evaluation trace of one concrete round over a failing, a solved
and a stalled obligation. -/
def exTrace : List (Obligation × EvalResult) :=
  [(exOb PredicateKind.ambiguous, Except.error {}),
   (exOb (PredicateKind.clauseTrait 5), Except.ok (true, Certainty.yes)),
   (exOb PredicateKind.clauseOther, Except.ok (false, Certainty.maybe MaybeCause.ambiguity))]

/-- C1 witness: the round characterization at a concrete three-obligation
round (one `NoSolution`, one solved with progress, one stalled). -/
theorem c1_witness :
    exTrace.map Prod.fst =
      [exOb PredicateKind.ambiguous, exOb (PredicateKind.clauseTrait 5),
       exOb PredicateKind.clauseOther] ∧
    [exOb PredicateKind.clauseOther] =
      (exTrace.filter fun p => is_maybe_result p.2).map Prod.fst ∧
    [exSelErr].map FulfillmentError.root_obligation =
      (exTrace.filter fun p => is_err_result p.2).map Prod.fst ∧
    true = (exTrace.any fun p => changed_result p.2) ∧
    (true = false → ∀ (n : Nat) (st : ObligationStorage) (errs0 : List FulfillmentError),
      st.pending = [exOb PredicateKind.ambiguous, exOb (PredicateKind.clauseTrait 5),
        exOb PredicateKind.clauseOther] →
      fixpoint_rounds exInfcx (n + 1) 0 st errs0 =
        Except.ok (3,
          { overflowed := st.overflowed, pending := [exOb PredicateKind.clauseOther] },
          errs0 ++ [exSelErr])) :=
  c1_round_outcomes exInfcx 0
    [exOb PredicateKind.ambiguous, exOb (PredicateKind.clauseTrait 5),
     exOb PredicateKind.clauseOther]
    3 exTrace [exOb PredicateKind.clauseOther] [exSelErr] true rfl

/-- Storage with one pending obligation that still makes progress. -/
def exStorage2 : ObligationStorage :=
  { overflowed := [], pending := [exOb (PredicateKind.clauseTrait 9)] }

/-- C2 witness: at an exhausted budget the loop returns exactly the
accumulated error and quarantines the still-progressing obligation. -/
theorem c2_witness :
    (∃ tail,
      ((0 : Nat),
        ({ overflowed := [exOb (PredicateKind.clauseTrait 9)], pending := [] } :
          ObligationStorage),
        [exSelErr]).2.2 = [exSelErr] ++ tail) ∧
    ((0 : Nat) = 0 →
      ((0 : Nat),
        ({ overflowed := [exOb (PredicateKind.clauseTrait 9)], pending := [] } :
          ObligationStorage),
        [exSelErr]) = (0, exStorage2.on_fulfillment_overflow exInfcx 0, [exSelErr])) :=
  c2_budget_returns_accumulated_errors exInfcx 0 0 exStorage2 [exSelErr]
    ((0 : Nat),
      ({ overflowed := [exOb (PredicateKind.clauseTrait 9)], pending := [] } :
        ObligationStorage),
      [exSelErr]) rfl

/-- A fulfillment context with one stalled pending obligation and one
quarantined obligation. -/
def exC3Ctxt : FulfillmentCtxt :=
  { obligations := { overflowed := [exOb (PredicateKind.clauseTrait 2)]
                     pending := [exOb PredicateKind.clauseOther] }
    usable_in_snapshot := 0 }

/-- C3 witness: concrete stalled classifications (plain ambiguity and
overflow hint) and the concrete split of `collect_remaining_errors` into
re-probed pending errors followed by direct overflow errors. -/
theorem c3_witness :
    fulfillment_error_for_stalled exInfcx 0 (exOb PredicateKind.clauseOther) =
      Except.ok { obligation := find_best_leaf_obligation exInfcx 0 (exOb PredicateKind.clauseOther)
                  code := FulfillmentErrorCode.ambiguity none
                  root_obligation := exOb PredicateKind.clauseOther } ∧
    fulfillment_error_for_stalled exInfcx 0 (exOb PredicateKind.objectSafe) =
      Except.ok { obligation := find_best_leaf_obligation exInfcx 0 (exOb PredicateKind.objectSafe)
                  code := FulfillmentErrorCode.ambiguity (some true)
                  root_obligation := exOb PredicateKind.objectSafe } ∧
    (∃ perrs, collect_stalled exInfcx 0 exC3Ctxt.obligations.pending = Except.ok perrs ∧
      [{ obligation := exOb PredicateKind.clauseOther
         code := FulfillmentErrorCode.ambiguity none
         root_obligation := exOb PredicateKind.clauseOther },
       { obligation := exOb (PredicateKind.clauseTrait 2)
         code := FulfillmentErrorCode.ambiguity (some true)
         root_obligation := exOb (PredicateKind.clauseTrait 2) }] =
        perrs ++ exC3Ctxt.obligations.overflowed.map (fun o =>
          { obligation := find_best_leaf_obligation exInfcx 0 o
            code := FulfillmentErrorCode.ambiguity (some true)
            root_obligation := o })) := by
  obtain ⟨h1, h2, h3⟩ := c3_stalled_classification exInfcx 0
  exact ⟨h1 (exOb PredicateKind.clauseOther) false rfl,
         h2 (exOb PredicateKind.objectSafe) false true rfl,
         h3 exC3Ctxt
           { obligations := { overflowed := [], pending := [] }, usable_in_snapshot := 0 }
           _ rfl⟩

/-- Storage mixing progressing, stalled and failing pending obligations. -/
def exStorage4 : ObligationStorage :=
  { overflowed := [exOb PredicateKind.normalizesTo]
    pending := [exOb (PredicateKind.clauseTrait 1), exOb PredicateKind.clauseOther,
      exOb PredicateKind.ambiguous] }

/-- C4 witness: the quarantine filter at a concrete storage under the
concrete (state-independent) oracle. -/
theorem c4_witness :
    exStorage4.on_fulfillment_overflow exInfcx 0 =
      { overflowed := exStorage4.overflowed ++
          exStorage4.pending.filter (fun o => changed_result ((exEval 0 o.goal).2)),
        pending := exStorage4.pending.filter (fun o => !changed_result ((exEval 0 o.goal).2)) } :=
  c4_quarantine_exactly_changed exInfcx (fun g => (exEval 0 g).2) (fun s2 g => rfl) 0 exStorage4

/-- C5 witness: a concrete failed subtype obligation `3 <: 4` reports
expected = 4, found = 3, and a concrete coercion the reverse. -/
theorem c5_witness :
    fulfillment_error_for_no_solution exInfcx 0 (exOb (PredicateKind.subtype 3 4)) =
      Except.ok { obligation := find_best_leaf_obligation exInfcx 0 (exOb (PredicateKind.subtype 3 4))
                  code := FulfillmentErrorCode.subtypeError { expected := 4, found := 3 }
                  root_obligation := exOb (PredicateKind.subtype 3 4) } ∧
    fulfillment_error_for_no_solution exInfcx 0 (exOb (PredicateKind.coerce 3 4)) =
      Except.ok { obligation := find_best_leaf_obligation exInfcx 0 (exOb (PredicateKind.coerce 3 4))
                  code := FulfillmentErrorCode.subtypeError { expected := 3, found := 4 }
                  root_obligation := exOb (PredicateKind.coerce 3 4) } :=
  ⟨(c5_subtype_coercion_direction exInfcx 0 (exOb (PredicateKind.subtype 3 4)) 3 4).1 rfl,
   (c5_subtype_coercion_direction exInfcx 0 (exOb (PredicateKind.coerce 3 4)) 3 4).2 rfl⟩

/-- C6 witness: the three fatal branches hit at concrete obligations. -/
theorem c6_witness :
    fulfillment_error_for_no_solution exInfcx 0 (exOb PredicateKind.constEquate) =
      Except.error "unexpected goal: ConstEquate" ∧
    fulfillment_error_for_stalled exInfcx 0 (exOb (PredicateKind.clauseTrait 3)) =
      Except.error "did not expect successful goal when collecting ambiguity errors" ∧
    fulfillment_error_for_stalled exInfcx 0 (exOb PredicateKind.ambiguous) =
      Except.error "did not expect selection error when collecting ambiguity errors" := by
  obtain ⟨h1, h2, h3⟩ := c6_internal_inconsistency_aborts exInfcx 0
  exact ⟨h1 (exOb PredicateKind.constEquate) rfl,
         h2 (exOb (PredicateKind.clauseTrait 3)) true rfl,
         h3 (exOb PredicateKind.ambiguous) {} rfl⟩

/-- C7 witness: the descent discipline at concrete trees -- a failing
candidate-free root halts, a `Misc` child is ignored, holding children
are skipped, failing children are pursued. -/
theorem c7_witness :
    visit_goal exInfcx (exOb (PredicateKind.clauseTrait 1))
      (PTree.node 0 (PredicateKind.clauseTrait 1) (Except.error {}) []) =
      some (exOb (PredicateKind.clauseTrait 1)) ∧
    visit_nested exInfcx (exOb (PredicateKind.clauseTrait 1))
      (ProbeKind.traitCandidate (CandidateSource.impl 0)) 1 0
      ([(GoalSource.implWhereBound, exLeafYes)] ++ (GoalSource.misc, exLeafFail) :: []) =
      visit_nested exInfcx (exOb (PredicateKind.clauseTrait 1))
        (ProbeKind.traitCandidate (CandidateSource.impl 0)) 1 0
        ([(GoalSource.implWhereBound, exLeafYes)] ++ []) ∧
    (visit_nested exInfcx (exOb (PredicateKind.clauseTrait 1))
      (ProbeKind.traitCandidate (CandidateSource.impl 0)) 1 0
      ((GoalSource.implWhereBound, exLeafYes) :: [(GoalSource.misc, exLeafFail)]) =
      visit_nested exInfcx (exOb (PredicateKind.clauseTrait 1))
        (ProbeKind.traitCandidate (CandidateSource.impl 0)) 1 (0 + 1)
        [(GoalSource.misc, exLeafFail)] ∧
     visit_nested exInfcx (exOb (PredicateKind.clauseTrait 1))
      (ProbeKind.traitCandidate (CandidateSource.impl 0)) 1 0
      ((GoalSource.instantiateHigherRanked, exLeafYes) :: [(GoalSource.misc, exLeafFail)]) =
      visit_nested exInfcx (exOb (PredicateKind.clauseTrait 1))
        (ProbeKind.traitCandidate (CandidateSource.impl 0)) 1 0
        [(GoalSource.misc, exLeafFail)]) ∧
    (visit_nested exInfcx (exOb (PredicateKind.clauseTrait 1))
      (ProbeKind.traitCandidate (CandidateSource.impl 0)) 1 0
      ((GoalSource.implWhereBound, exLeafFail) :: []) =
      or_continue
        (visit_goal exInfcx
          (impl_where_obligation exInfcx (ProbeKind.traitCandidate (CandidateSource.impl 0))
            (exOb (PredicateKind.clauseTrait 1)) 1 0 exLeafFail) exLeafFail)
        (visit_nested exInfcx (exOb (PredicateKind.clauseTrait 1))
          (ProbeKind.traitCandidate (CandidateSource.impl 0)) 1 (0 + 1) []) ∧
     visit_nested exInfcx (exOb (PredicateKind.clauseTrait 1))
      (ProbeKind.traitCandidate (CandidateSource.impl 0)) 1 0
      ((GoalSource.instantiateHigherRanked, exLeafFail) :: []) =
      or_continue (visit_goal exInfcx (exOb (PredicateKind.clauseTrait 1)) exLeafFail)
        (visit_nested exInfcx (exOb (PredicateKind.clauseTrait 1))
          (ProbeKind.traitCandidate (CandidateSource.impl 0)) 1 0 [])) := by
  obtain ⟨h1, h2, h3, h4⟩ := c7_descent_discipline exInfcx (exOb (PredicateKind.clauseTrait 1))
    (ProbeKind.traitCandidate (CandidateSource.impl 0)) 1 0
  exact ⟨h1 0 (PredicateKind.clauseTrait 1) (Except.error {}) [] (by decide),
         h2 [(GoalSource.implWhereBound, exLeafYes)] [] exLeafFail,
         h3 exLeafYes [(GoalSource.misc, exLeafFail)] rfl,
         h4 exLeafFail [] (by intro hc; simp [exLeafFail, PTree.result] at hc)⟩

/-- C8 witness: the derived cause at concrete data -- the impl cause cites
clause 1 with span 8, the builtin cause carries no index, and a pursued
`ImplWhereBound` child after a skipped `Misc` child and a skipped holding
`ImplWhereBound` child is indexed by the count 1, not the position 2. -/
theorem c8_witness :
    derive_cause exInfcx (ProbeKind.traitCandidate (CandidateSource.impl 0)) exCause 1 5 =
      { exCause with code := CauseCode.implDerived 0 (some 1) 8 5 exCause.code } ∧
    derive_cause exInfcx (ProbeKind.traitCandidate CandidateSource.builtinImpl) exCause 0 5 =
      { exCause with code := CauseCode.builtinDerived 5 exCause.code } ∧
    visit_nested exInfcx (exOb (PredicateKind.clauseTrait 1))
      (ProbeKind.traitCandidate (CandidateSource.impl 0)) 1 0
      ([(GoalSource.misc, exLeafFail), (GoalSource.implWhereBound, exLeafYes)] ++
        (GoalSource.implWhereBound, exLeafFail) :: []) =
      or_continue
        (visit_goal exInfcx
          (impl_where_obligation exInfcx (ProbeKind.traitCandidate (CandidateSource.impl 0))
            (exOb (PredicateKind.clauseTrait 1)) 1
            (0 + count_impl_where_bound
              [(GoalSource.misc, exLeafFail), (GoalSource.implWhereBound, exLeafYes)])
            exLeafFail) exLeafFail)
        (visit_nested exInfcx (exOb (PredicateKind.clauseTrait 1))
          (ProbeKind.traitCandidate (CandidateSource.impl 0)) 1
          (0 + count_impl_where_bound
            [(GoalSource.misc, exLeafFail), (GoalSource.implWhereBound, exLeafYes)] + 1)
          []) := by
  obtain ⟨h1, h2, h3⟩ := c8_derived_cause exInfcx (exOb (PredicateKind.clauseTrait 1))
    (ProbeKind.traitCandidate (CandidateSource.impl 0)) 1 0
  refine ⟨h1 0 1 8 5 exCause rfl, h2 0 5 exCause, ?_⟩
  refine h3 [(GoalSource.misc, exLeafFail), (GoalSource.implWhereBound, exLeafYes)] []
    exLeafFail ?_ (by intro hc; simp [exLeafFail, PTree.result] at hc)
  intro p hp
  rcases List.mem_cons.mp hp with rfl | hp2
  · exact Or.inl rfl
  · rcases List.mem_cons.mp hp2 with rfl | hp3
    · exact Or.inr rfl
    · cases hp3

/-- A fulfillment context with one pending obligation the oracle rejects. -/
def exC10Ctxt : FulfillmentCtxt :=
  { obligations := { overflowed := [], pending := [exOb PredicateKind.ambiguous] }
    usable_in_snapshot := 0 }

/-- C10 witness: a concrete `NoSolution` obligation stays pending under
quarantine, and a later `collect_remaining_errors` over it aborts. -/
theorem c10_witness :
    overflow_extract exInfcx 0 (exOb PredicateKind.ambiguous :: [exOb PredicateKind.clauseOther]) =
      (exOb PredicateKind.ambiguous ::
        (overflow_extract exInfcx
          (exInfcx.evaluate_root_goal 0 (exOb PredicateKind.ambiguous).goal).1
          [exOb PredicateKind.clauseOther]).1,
       (overflow_extract exInfcx
          (exInfcx.evaluate_root_goal 0 (exOb PredicateKind.ambiguous).goal).1
          [exOb PredicateKind.clauseOther]).2) ∧
    (∃ msg, collect_remaining_errors exC10Ctxt exInfcx 0 = Except.error msg) := by
  obtain ⟨h1, h2⟩ := c10_nosolution_not_quarantined exInfcx 0
  exact ⟨h1 (exOb PredicateKind.ambiguous) [exOb PredicateKind.clauseOther] {} rfl,
         h2 exC10Ctxt (exOb PredicateKind.ambiguous) {} (List.mem_cons_self _ _) rfl⟩

end Fulfill
